import Mathlib

/-!
# Verification of the speedtest-tracker-webhook service (`main.go`)

This development shallowly embeds the Go program in Lean 4 and proves
properties of it.

* The JSON decoding step (`json.Unmarshal` into `WebhookPayload`) is embedded
  as an executable JSON parser following the JSON grammar accepted by Go's
  `encoding/json` scanner, plus an unmarshalling step into the payload struct
  that mirrors `encoding/json`'s struct decoding rules: unknown keys are
  ignored, keys match field tags ASCII-case-insensitively (`strings.EqualFold`;
  only ASCII folding is modelled), JSON `null` leaves a field untouched,
  numbers into `int` fields require an integer literal within the 64-bit
  range (`strconv.ParseInt`), and a type mismatch is recorded as an error
  while decoding continues (the first error is returned at the end).
  JSON numbers are modelled as exact rationals; `float64` rounding and
  overflow are not modelled (all values in this development are exactly
  representable). Error message strings are abstracted (the program never
  inspects them).
* `webhookHandler` is embedded as a pure function from a telemetry state, the
  request method, and the result of reading the request body, to the new
  telemetry state and the HTTP response.  The telemetry state records the
  values recorded into the three histograms and the spans started by the
  handler.
* `run` is embedded as a pure function from an environment (outcomes of
  `setupOTelSDK`, instrument creation, `os.Getenv`, listen and shutdown) to
  an outcome (a `log.Fatalf` exit or the function's return value) and a trace
  of lifecycle events.  Go errors are modelled as `List String` with `[]`
  playing the role of `nil`; `errors.Join` is concatenation.  Note that
  `run` in `main.go` has an *unnamed* result, so the deferred
  `err = errors.Join(err, otelShutdown(ctx))` assigns to a local variable and
  never reaches the caller; the model reproduces exactly what the Go function
  returns and records the shutdown call (with the flush error it produced) as
  a trace event.
-/

namespace STW

/-! ## JSON values and the parser (modelling `encoding/json` syntax checking) -/

/-- A JSON document.  Numbers keep their literal components (sign, integer
digits, fraction digits, exponent sign and digits) because `encoding/json`
decides `int` versus `float64` compatibility from the literal itself. -/
inductive Json where
  | null : Json
  | bool (b : Bool) : Json
  | num (neg : Bool) (ip : List Char) (fp : List Char) (eneg : Bool) (ep : List Char) : Json
  | str (s : String) : Json
  | arr (xs : List Json) : Json
  | obj (fields : List (String × Json)) : Json

/-- JSON insignificant whitespace, as accepted by Go's scanner: space, tab,
line feed, carriage return. -/
def isWs (c : Char) : Bool :=
  c.toNat = 32 || c.toNat = 9 || c.toNat = 10 || c.toNat = 13

/-- Skip leading whitespace. -/
def skipWs (cs : List Char) : List Char :=
  match cs with
  | [] => []
  | c :: rest => if isWs c then skipWs rest else cs

/-- Value of a hexadecimal digit (0-9, a-f, A-F). -/
def hexVal (c : Char) : Option Nat :=
  let n := c.toNat
  if 48 ≤ n ∧ n ≤ 57 then some (n - 48)
  else if 97 ≤ n ∧ n ≤ 102 then some (n - 87)
  else if 65 ≤ n ∧ n ≤ 70 then some (n - 55)
  else none

/-- Single-character string escapes accepted by JSON (`\u` is handled
separately).  Quote, backslash and slash denote themselves; `b`, `f`, `n`,
`r`, `t` denote the control characters 8, 12, 10, 13, 9. -/
def escChar (c : Char) : Option Char :=
  match c.toNat with
  | 34 => some c
  | 92 => some c
  | 47 => some c
  | 98 => some (Char.ofNat 8)
  | 102 => some (Char.ofNat 12)
  | 110 => some (Char.ofNat 10)
  | 114 => some (Char.ofNat 13)
  | 116 => some (Char.ofNat 9)
  | _ => none

/-- Parse the contents of a JSON string after the opening quote, returning the
decoded characters and the input after the closing quote.  An out-of-range
`\u` escape is replaced by U+FFFD, as Go replaces invalid code points. -/
def parseStr : Nat → List Char → Option (List Char × List Char)
  | 0, _ => none
  | _ + 1, [] => none
  | f + 1, c :: cs =>
    if c == '"' then some ([], cs)
    else if c == '\\' then
      match cs with
      | [] => none
      | e :: cs2 =>
        if e == 'u' then
          match cs2 with
          | h1 :: h2 :: h3 :: h4 :: cs3 =>
            match hexVal h1, hexVal h2, hexVal h3, hexVal h4 with
            | some a, some b, some c2, some d =>
              let n := ((a * 16 + b) * 16 + c2) * 16 + d
              let ch := if Nat.isValidChar n then Char.ofNat n else Char.ofNat 0xFFFD
              match parseStr f cs3 with
              | some (s, rest) => some (ch :: s, rest)
              | none => none
            | _, _, _, _ => none
          | _ => none
        else
          match escChar e with
          | some ch =>
            match parseStr f cs2 with
            | some (s, rest) => some (ch :: s, rest)
            | none => none
          | none => none
    else if c.toNat < 32 then none
    else
      match parseStr f cs with
      | some (s, rest) => some (c :: s, rest)
      | none => none

/-- Take a non-empty run of decimal digits. -/
def parseDigits (cs : List Char) : Option (List Char × List Char) :=
  let p := cs.span (fun c => c.isDigit)
  if p.1 = [] then none else some p

/-- Parse the integer part of a JSON number: `0`, or a nonzero digit followed
by digits (leading zeros are not absorbed; a stray digit after `0` is left in
the remainder and rejected by the surrounding grammar, as in Go's scanner). -/
def parseIntPart (cs : List Char) : Option (List Char × List Char) :=
  match cs with
  | '0' :: r => some (['0'], r)
  | c :: _ => if c.isDigit then parseDigits cs else none
  | [] => none

/-- Parse an optional fraction part `.digits`; if absent or malformed the
input is returned unchanged (a malformed fraction leaves a `.` in the
remainder, which no JSON production accepts, so the parse fails overall). -/
def parseFrac (cs : List Char) : List Char × List Char :=
  match cs with
  | '.' :: r =>
    match parseDigits r with
    | some (ds, r2) => (ds, r2)
    | none => ([], cs)
  | _ => ([], cs)

/-- Parse an optional exponent part `[eE][+-]?digits`; if absent or malformed
the input is returned unchanged. -/
def parseExp (cs : List Char) : Bool × List Char × List Char :=
  match cs with
  | e :: r =>
    if e == 'e' || e == 'E' then
      match r with
      | '+' :: r2 =>
        match parseDigits r2 with
        | some (ds, r3) => (false, ds, r3)
        | none => (false, [], cs)
      | '-' :: r2 =>
        match parseDigits r2 with
        | some (ds, r3) => (true, ds, r3)
        | none => (false, [], cs)
      | _ =>
        match parseDigits r with
        | some (ds, r3) => (false, ds, r3)
        | none => (false, [], cs)
    else (false, [], cs)
  | [] => (false, [], cs)

/-- Parse a JSON number (the first character is `-` or a digit). -/
def parseNum (cs : List Char) : Option (Json × List Char) :=
  let sp : Bool × List Char :=
    if cs.head? = some '-' then (true, cs.tail) else (false, cs)
  match parseIntPart sp.2 with
  | none => none
  | some (ip, cs2) =>
    let fr := parseFrac cs2
    let ex := parseExp fr.2
    some (Json.num sp.1 ip fr.1 ex.1 ex.2.1, ex.2.2)

mutual

/-- Parse a JSON value, preceded by optional whitespace. -/
def parseVal : Nat → List Char → Option (Json × List Char)
  | 0, _ => none
  | f + 1, cs =>
    match skipWs cs with
    | [] => none
    | c :: rest =>
      if c == '{' then parseObj f rest
      else if c == '[' then parseArr f rest
      else if c == '"' then
        match parseStr f rest with
        | some (s, r) => some (Json.str (String.mk s), r)
        | none => none
      else if c == 't' then
        match rest with
        | 'r' :: 'u' :: 'e' :: r => some (Json.bool true, r)
        | _ => none
      else if c == 'f' then
        match rest with
        | 'a' :: 'l' :: 's' :: 'e' :: r => some (Json.bool false, r)
        | _ => none
      else if c == 'n' then
        match rest with
        | 'u' :: 'l' :: 'l' :: r => some (Json.null, r)
        | _ => none
      else if c == '-' || c.isDigit then parseNum (c :: rest)
      else none

/-- Parse an object body after the opening brace. -/
def parseObj : Nat → List Char → Option (Json × List Char)
  | 0, _ => none
  | f + 1, cs =>
    match skipWs cs with
    | '}' :: r => some (Json.obj [], r)
    | cs1 =>
      match parseMember f cs1 with
      | some (m, r) => parseObjRest f [m] r
      | none => none

/-- Parse the remaining members of an object after the first one. -/
def parseObjRest : Nat → List (String × Json) → List Char → Option (Json × List Char)
  | 0, _, _ => none
  | f + 1, acc, cs =>
    match skipWs cs with
    | ',' :: r =>
      match parseMember f r with
      | some (m, r2) => parseObjRest f (m :: acc) r2
      | none => none
    | '}' :: r => some (Json.obj acc.reverse, r)
    | _ => none

/-- Parse one `"key": value` member. -/
def parseMember : Nat → List Char → Option ((String × Json) × List Char)
  | 0, _ => none
  | f + 1, cs =>
    match skipWs cs with
    | '"' :: r =>
      match parseStr f r with
      | some (k, r1) =>
        match skipWs r1 with
        | ':' :: r2 =>
          match parseVal f r2 with
          | some (v, r3) => some ((String.mk k, v), r3)
          | none => none
        | _ => none
      | none => none
    | _ => none

/-- Parse an array body after the opening bracket. -/
def parseArr : Nat → List Char → Option (Json × List Char)
  | 0, _ => none
  | f + 1, cs =>
    match skipWs cs with
    | ']' :: r => some (Json.arr [], r)
    | cs1 =>
      match parseVal f cs1 with
      | some (v, r) => parseArrRest f [v] r
      | none => none

/-- Parse the remaining elements of an array after the first one. -/
def parseArrRest : Nat → List Json → List Char → Option (Json × List Char)
  | 0, _, _ => none
  | f + 1, acc, cs =>
    match skipWs cs with
    | ',' :: r =>
      match parseVal f r with
      | some (v, r2) => parseArrRest f (v :: acc) r2
      | none => none
    | ']' :: r => some (Json.arr acc.reverse, r)
    | _ => none

end

/-- Parse a complete JSON document: one value with only whitespace around it,
exactly the validity check performed by `json.Unmarshal`.  The fuel bound is
far above the maximal call depth of the recursive-descent parser, which
consumes at least one character every few calls. -/
def parseJson (s : String) : Option Json :=
  match parseVal (10 * s.length + 20) s.data with
  | some (j, rest) => if skipWs rest = [] then some j else none
  | none => none

/-! ## The webhook payload and `json.Unmarshal` into it -/

/-- The `WebhookPayload` struct of `main.go`.  `float64` fields are modelled
as exact rationals. -/
structure WebhookPayload where
  ResultID : Int
  SiteName : String
  Service : String
  ServerName : String
  ServerID : Int
  ISP : String
  Ping : ℚ
  Download : ℚ
  Upload : ℚ
  PacketLoss : ℚ
  SpeedtestURL : String
  URL : String
deriving DecidableEq, Repr

/-- The zero value of `WebhookPayload`, the state of `var payload
WebhookPayload` before `json.Unmarshal` assigns any field. -/
def zeroPayload : WebhookPayload :=
  { ResultID := 0, SiteName := "", Service := "", ServerName := "", ServerID := 0,
    ISP := "", Ping := 0, Download := 0, Upload := 0, PacketLoss := 0,
    SpeedtestURL := "", URL := "" }

/-- Numeric value of one decimal digit (code point minus 48). -/
def digitValue (c : Char) : Nat := c.toNat - 48

/-- Numeric value of a digit run. -/
def digitsToNat (ds : List Char) : Nat :=
  ds.foldl (fun a c => 10 * a + digitValue c) 0

/-- Signed integer value of a number literal's integer digits. -/
def digitsToInt (neg : Bool) (ds : List Char) : Int :=
  if neg then -(digitsToNat ds : Int) else (digitsToNat ds : Int)

/-- Exact rational value of a JSON number literal. -/
def numValue (neg : Bool) (ip fp : List Char) (eneg : Bool) (ep : List Char) : ℚ :=
  let mantissa : ℚ :=
    ((digitsToNat ip : ℚ) * (10 : ℚ) ^ fp.length + (digitsToNat fp : ℚ)) / (10 : ℚ) ^ fp.length
  let mag : ℚ :=
    if eneg then mantissa / (10 : ℚ) ^ digitsToNat ep else mantissa * (10 : ℚ) ^ digitsToNat ep
  if neg then -mag else mag

/-- `strings.EqualFold` restricted to ASCII case folding, which is how
`encoding/json` matches object keys against field tags. -/
def keyMatches (k tag : String) : Bool :=
  k.data.map Char.toLower == tag.data.map Char.toLower

/-- Assign a JSON value to an `int` struct field (`encoding/json` semantics):
`null` is a no-op, an integer literal within the `int64` range is accepted
(`strconv.ParseInt`), anything else is a type error that leaves the field
unchanged. -/
def setIntField (p : WebhookPayload) (v : Json) (upd : Int → WebhookPayload) :
    WebhookPayload × Option String :=
  match v with
  | Json.null => (p, none)
  | Json.num neg ip fp _ ep =>
    if fp = [] ∧ ep = [] ∧ -(2 ^ 63) ≤ digitsToInt neg ip ∧ digitsToInt neg ip < 2 ^ 63 then
      (upd (digitsToInt neg ip), none)
    else (p, some "cannot unmarshal number into Go struct field of type int")
  | _ => (p, some "cannot unmarshal JSON value into Go struct field of type int")

/-- Assign a JSON value to a `float64` struct field: `null` is a no-op, any
number is accepted, anything else is a type error. -/
def setFloatField (p : WebhookPayload) (v : Json) (upd : ℚ → WebhookPayload) :
    WebhookPayload × Option String :=
  match v with
  | Json.null => (p, none)
  | Json.num neg ip fp eneg ep => (upd (numValue neg ip fp eneg ep), none)
  | _ => (p, some "cannot unmarshal JSON value into Go struct field of type float64")

/-- Assign a JSON value to a `string` struct field: `null` is a no-op, a JSON
string is accepted, anything else is a type error. -/
def setStrField (p : WebhookPayload) (v : Json) (upd : String → WebhookPayload) :
    WebhookPayload × Option String :=
  match v with
  | Json.null => (p, none)
  | Json.str s => (upd s, none)
  | _ => (p, some "cannot unmarshal JSON value into Go struct field of type string")

/-- Dispatch one object member to the payload field whose JSON tag matches the
key (case-insensitively); unknown keys are ignored.  The twelve tags are
pairwise distinct even under folding, so the match is unambiguous. -/
def setField (p : WebhookPayload) (k : String) (v : Json) : WebhookPayload × Option String :=
  if keyMatches k "result_id" then setIntField p v (fun i => { p with ResultID := i })
  else if keyMatches k "site_name" then setStrField p v (fun s => { p with SiteName := s })
  else if keyMatches k "service" then setStrField p v (fun s => { p with Service := s })
  else if keyMatches k "serverName" then setStrField p v (fun s => { p with ServerName := s })
  else if keyMatches k "serverId" then setIntField p v (fun i => { p with ServerID := i })
  else if keyMatches k "isp" then setStrField p v (fun s => { p with ISP := s })
  else if keyMatches k "ping" then setFloatField p v (fun q => { p with Ping := q })
  else if keyMatches k "download" then setFloatField p v (fun q => { p with Download := q })
  else if keyMatches k "upload" then setFloatField p v (fun q => { p with Upload := q })
  else if keyMatches k "packetLoss" then setFloatField p v (fun q => { p with PacketLoss := q })
  else if keyMatches k "speedtest_url" then setStrField p v (fun s => { p with SpeedtestURL := s })
  else if keyMatches k "url" then setStrField p v (fun s => { p with URL := s })
  else (p, none)

/-- Fold one member into the accumulated payload, keeping the first error
(decoding continues past a type error, as `encoding/json` does). -/
def applyField (acc : WebhookPayload × Option String) (kv : String × Json) :
    WebhookPayload × Option String :=
  let r := setField acc.1 kv.1 kv.2
  (r.1, match acc.2 with
        | some e => some e
        | none => r.2)

/-- Fold all members of an object into the payload. -/
def applyFields (fs : List (String × Json)) (acc : WebhookPayload × Option String) :
    WebhookPayload × Option String :=
  fs.foldl applyField acc

/-- `json.Unmarshal` of a parsed document into `WebhookPayload`: `null` is a
no-op (leaving the zero value), an object is decoded member by member, and
any other document is a type error. -/
def unmarshalInto (j : Json) : Except String WebhookPayload :=
  match j with
  | Json.null => Except.ok zeroPayload
  | Json.obj fs =>
    match (applyFields fs (zeroPayload, none)).2 with
    | some e => Except.error e
    | none => Except.ok (applyFields fs (zeroPayload, none)).1
  | _ => Except.error "cannot unmarshal JSON value into Go value of type WebhookPayload"

/-- The decode step of the handler: `json.Unmarshal(body, &payload)`. -/
def unmarshalPayload (b : String) : Except String WebhookPayload :=
  match parseJson b with
  | none => Except.error "invalid JSON syntax"
  | some j => unmarshalInto j

/-- Whether decoding succeeds. -/
def decodeOk (b : String) : Bool :=
  match unmarshalPayload b with
  | Except.ok _ => true
  | Except.error _ => false

/-- Whether an object literal has a member whose key matches the given tag
(case-insensitively, exactly the match `encoding/json` would perform). -/
def hasKeyFold (fs : List (String × Json)) (tag : String) : Bool :=
  fs.any (fun kv => keyMatches kv.1 tag)

/-! ## Telemetry primitives and the webhook handler -/

/-- An OpenTelemetry attribute value as used by the program. -/
inductive AttrVal where
  | str (s : String) : AttrVal
  | int (i : Int) : AttrVal
  | float (q : ℚ) : AttrVal
deriving DecidableEq, Repr

/-- One value recorded into a histogram, with its attribute set. -/
structure MetricRecord where
  value : ℚ
  attrs : List (String × AttrVal)
deriving DecidableEq, Repr

/-- One event attached to a span. -/
structure SpanEvent where
  name : String
  attrs : List (String × AttrVal)
deriving DecidableEq, Repr

/-- One span started (and, by the deferred `span.End()`, always ended) by the
handler: the errors recorded on it and the events attached to it. -/
structure SpanRecord where
  errorsRecorded : List String
  events : List SpanEvent
deriving DecidableEq, Repr

/-- The telemetry side effects visible to the handler: the values recorded
into the three process-wide histograms and the handler spans. -/
structure TelemetryState where
  pingHistogram : List MetricRecord
  downloadHistogram : List MetricRecord
  uploadHistogram : List MetricRecord
  spans : List SpanRecord
deriving DecidableEq, Repr

/-- An HTTP response as written by the handler (`http.Error` appends a
newline to its message; the success path prints the confirmation line). -/
structure HandlerResponse where
  status : Nat
  body : String
deriving DecidableEq, Repr

/-- `strconv.Itoa`. -/
def itoa (i : Int) : String :=
  if i < 0 then "-" ++ Nat.repr i.natAbs else Nat.repr i.natAbs

/-- The attribute set attached to all three histogram recordings of a
request (`metric.WithAttributes` in the handler). -/
def metricAttrs (p : WebhookPayload) : List (String × AttrVal) :=
  [("server.id", AttrVal.str (itoa p.ServerID)),
   ("server.name", AttrVal.str p.ServerName),
   ("isp", AttrVal.str p.ISP)]

/-- The `speedtest.result` span event attached on the success path. -/
def speedtestEvent (p : WebhookPayload) : SpanEvent :=
  { name := "speedtest.result",
    attrs := [("result_id", AttrVal.int p.ResultID),
              ("site_name", AttrVal.str p.SiteName),
              ("service", AttrVal.str p.Service),
              ("server.name", AttrVal.str p.ServerName),
              ("server.id", AttrVal.int p.ServerID),
              ("isp", AttrVal.str p.ISP),
              ("ping", AttrVal.float p.Ping),
              ("download.bps", AttrVal.float p.Download),
              ("upload.bps", AttrVal.float p.Upload),
              ("packet.loss", AttrVal.float p.PacketLoss),
              ("speedtest.url", AttrVal.str p.SpeedtestURL)] }

/-- `webhookHandler` of `main.go` as a pure function.  `bodyRead` is the
result of `io.ReadAll(r.Body)`.  The method check precedes the span start;
every later exit appends the one span the invocation started. -/
def webhookHandler (st : TelemetryState) (method : String)
    (bodyRead : Except String String) : TelemetryState × HandlerResponse :=
  if method ≠ "POST" then
    (st, { status := 405, body := "Method not allowed\n" })
  else
    match bodyRead with
    | Except.error e =>
      ({ st with spans := st.spans ++ [{ errorsRecorded := [e], events := [] }] },
       { status := 500, body := "Error reading request body\n" })
    | Except.ok body =>
      match unmarshalPayload body with
      | Except.error e =>
        ({ st with spans := st.spans ++ [{ errorsRecorded := [e], events := [] }] },
         { status := 400, body := "Error parsing JSON payload\n" })
      | Except.ok payload =>
        ({ pingHistogram := st.pingHistogram ++ [{ value := payload.Ping, attrs := metricAttrs payload }],
           downloadHistogram := st.downloadHistogram ++ [{ value := payload.Download, attrs := metricAttrs payload }],
           uploadHistogram := st.uploadHistogram ++ [{ value := payload.Upload, attrs := metricAttrs payload }],
           spans := st.spans ++ [{ errorsRecorded := [], events := [speedtestEvent payload] }] },
         { status := 200, body := "Webhook received and processed.\n" })

/-! ## The `run` lifecycle -/

/-- `strconv.Atoi`: an optional sign followed by at least one decimal digit,
with the value required to fit in a 64-bit `int`. -/
def atoi (s : String) : Option Int :=
  match s.data with
  | [] => none
  | c :: rest =>
    let sd : Bool × List Char :=
      if c = '-' then (true, rest) else if c = '+' then (false, rest) else (false, c :: rest)
    if sd.2 = [] ∨ ¬ sd.2.all (fun d => d.isDigit) then none
    else
      let v := digitsToInt sd.1 sd.2
      if -(2 ^ 63) ≤ v ∧ v < 2 ^ 63 then some v else none

/-- The outcomes of the external calls `run` makes, fixed up front so that
`run` itself is a pure function of them: the error returned by
`setupOTelSDK`, the error the returned shutdown function will produce when
called, the errors of the three instrument creations, the value of the
`STW_SERVER_PORT` environment variable (`""` when absent, as `os.Getenv`
reports absence), whether `ListenAndServe` ended with `http.ErrServerClosed`,
and the error of `server.Shutdown`.  Go errors are `List String`, `[]`
standing for `nil`. -/
structure RunEnv where
  setupErr : List String
  flushErr : List String
  pingHistErr : List String
  downloadHistErr : List String
  uploadHistErr : List String
  portEnv : String
  listenOk : Bool
  shutdownErr : List String
deriving DecidableEq, Repr

/-- Lifecycle events of one execution of `run`, in order. -/
inductive RunEvent where
  | otelSetup : RunEvent
  | instrument (name unit : String) : RunEvent
  | serverConstructed : RunEvent
  | listenStarted : RunEvent
  | serverShutdown : RunEvent
  | otelShutdownCalled (flushResult : List String) : RunEvent
deriving DecidableEq, Repr

/-- How `run` ends: a `log.Fatalf` (which calls `os.Exit`, skipping deferred
functions) or a return with the given error value. -/
inductive RunOutcome where
  | fatal (msg : String) : RunOutcome
  | ret (e : List String) : RunOutcome
deriving DecidableEq, Repr

/-- Does an event create an instrument? -/
def isInstrumentEvent : RunEvent → Bool
  | RunEvent.instrument _ _ => true
  | _ => false

/-- `run` of `main.go` as a pure function of its environment, returning its
outcome and the trace of lifecycle events.  Faithfulness notes, keyed to the
source: the deferred `err = errors.Join(err, otelShutdown(context.Background()))`
assigns to the local `err`, but `run` has an unnamed result, so the joined
value never becomes the return value — the model therefore returns exactly
the value of each `return` statement and logs the shutdown call (with the
flush error it returned) as an event; `log.Fatalf` exits the process without
running the deferred shutdown; the two port errors reproduce the messages of
`main.go` (including the `inavlid` typo); a listen failure other than
`http.ErrServerClosed` is a `log.Fatalf` in the serving goroutine; the wait
on the signal channel is assumed to end (a termination signal arrives), after
which `server.Shutdown` runs. -/
def run (env : RunEnv) : RunOutcome × List RunEvent :=
  if env.setupErr ≠ [] then
    (RunOutcome.ret env.setupErr, [RunEvent.otelSetup])
  else if env.pingHistErr ≠ [] then
    (RunOutcome.fatal "Failed to create ping histogram", [RunEvent.otelSetup])
  else if env.downloadHistErr ≠ [] then
    (RunOutcome.fatal "Failed to create download histogram",
     [RunEvent.otelSetup, RunEvent.instrument "speedtest.ping" "ms"])
  else if env.uploadHistErr ≠ [] then
    (RunOutcome.fatal "Failed to create upload histogram",
     [RunEvent.otelSetup, RunEvent.instrument "speedtest.ping" "ms",
      RunEvent.instrument "speedtest.download" "bps"])
  else if env.portEnv = "" then
    (RunOutcome.ret ["missing env var STW_SERVER_PORT"],
     [RunEvent.otelSetup, RunEvent.instrument "speedtest.ping" "ms",
      RunEvent.instrument "speedtest.download" "bps",
      RunEvent.instrument "speedtest.upload" "bps",
      RunEvent.otelShutdownCalled env.flushErr])
  else
    match atoi env.portEnv with
    | none =>
      (RunOutcome.ret ["inavlid value for env var STW_SERVER_PORT " ++ env.portEnv],
       [RunEvent.otelSetup, RunEvent.instrument "speedtest.ping" "ms",
        RunEvent.instrument "speedtest.download" "bps",
        RunEvent.instrument "speedtest.upload" "bps",
        RunEvent.otelShutdownCalled env.flushErr])
    | some _ =>
      if ¬ env.listenOk then
        (RunOutcome.fatal "Could not listen on port",
         [RunEvent.otelSetup, RunEvent.instrument "speedtest.ping" "ms",
          RunEvent.instrument "speedtest.download" "bps",
          RunEvent.instrument "speedtest.upload" "bps",
          RunEvent.serverConstructed, RunEvent.listenStarted])
      else if env.shutdownErr ≠ [] then
        (RunOutcome.ret env.shutdownErr,
         [RunEvent.otelSetup, RunEvent.instrument "speedtest.ping" "ms",
          RunEvent.instrument "speedtest.download" "bps",
          RunEvent.instrument "speedtest.upload" "bps",
          RunEvent.serverConstructed, RunEvent.listenStarted,
          RunEvent.serverShutdown, RunEvent.otelShutdownCalled env.flushErr])
      else
        (RunOutcome.ret [],
         [RunEvent.otelSetup, RunEvent.instrument "speedtest.ping" "ms",
          RunEvent.instrument "speedtest.download" "bps",
          RunEvent.instrument "speedtest.upload" "bps",
          RunEvent.serverConstructed, RunEvent.listenStarted,
          RunEvent.serverShutdown, RunEvent.otelShutdownCalled env.flushErr])

/-! ## Concrete fixtures -/

/-- The telemetry state before any request. -/
def emptyTelemetry : TelemetryState :=
  { pingHistogram := [], downloadHistogram := [], uploadHistogram := [], spans := [] }

/-- The example request body of the specification. -/
def exampleBody : String :=
  "\x7b\"result_id\":123,\"serverId\":456,\"serverName\":\"Test Server\",\"isp\":\"Example ISP\",\"ping\":25.5,\"download\":100000000,\"upload\":50000000\x7d"

/-- The payload the example body decodes to. -/
def examplePayload : WebhookPayload :=
  { zeroPayload with
      ResultID := 123
      ServerID := 456
      ServerName := "Test Server"
      ISP := "Example ISP"
      Ping := 51 / 2
      Download := 100000000
      Upload := 50000000 }

/-- An environment in which every external call succeeds. -/
def goodEnv : RunEnv :=
  { setupErr := [], flushErr := [], pingHistErr := [], downloadHistErr := [],
    uploadHistErr := [], portEnv := "8080", listenOk := true, shutdownErr := [] }

/-- A clean execution in which the telemetry flush at shutdown fails. -/
def flushFailEnv : RunEnv := { goodEnv with flushErr := ["telemetry flush failed"] }

/-- An environment in which telemetry bootstrap fails. -/
def setupFailEnv : RunEnv := { goodEnv with setupErr := ["exporter unreachable"] }

/-- No event of the list creates an instrument. -/
def instrumentFree (l : List RunEvent) : Bool := l.all (fun ev => !(isInstrumentEvent ev))

/-- Modelled from the spec: the response-status case split of §6 — `405` when
the method is not POST, `500` when reading the body fails, `400` when the
body does not decode, `200` otherwise.  Stated separately from
`webhookHandler` so that the handler can be proved to refine it. -/
def specStatus (method : String) (bodyRead : Except String String) : Nat :=
  if method ≠ "POST" then 405
  else
    match bodyRead with
    | Except.error _ => 500
    | Except.ok b =>
      match unmarshalPayload b with
      | Except.error _ => 400
      | Except.ok _ => 200

/-! ## Helper lemmas about the decoder -/

/-- Case characterization of `setField`: the member either hits one of the
twelve tagged fields or is ignored. -/
theorem setField_eq (p : WebhookPayload) (k : String) (v : Json) :
    (keyMatches k "result_id" = true ∧
       setField p k v = setIntField p v (fun i => { p with ResultID := i })) ∨
    (keyMatches k "site_name" = true ∧
       setField p k v = setStrField p v (fun s => { p with SiteName := s })) ∨
    (keyMatches k "service" = true ∧
       setField p k v = setStrField p v (fun s => { p with Service := s })) ∨
    (keyMatches k "serverName" = true ∧
       setField p k v = setStrField p v (fun s => { p with ServerName := s })) ∨
    (keyMatches k "serverId" = true ∧
       setField p k v = setIntField p v (fun i => { p with ServerID := i })) ∨
    (keyMatches k "isp" = true ∧
       setField p k v = setStrField p v (fun s => { p with ISP := s })) ∨
    (keyMatches k "ping" = true ∧
       setField p k v = setFloatField p v (fun q => { p with Ping := q })) ∨
    (keyMatches k "download" = true ∧
       setField p k v = setFloatField p v (fun q => { p with Download := q })) ∨
    (keyMatches k "upload" = true ∧
       setField p k v = setFloatField p v (fun q => { p with Upload := q })) ∨
    (keyMatches k "packetLoss" = true ∧
       setField p k v = setFloatField p v (fun q => { p with PacketLoss := q })) ∨
    (keyMatches k "speedtest_url" = true ∧
       setField p k v = setStrField p v (fun s => { p with SpeedtestURL := s })) ∨
    (keyMatches k "url" = true ∧
       setField p k v = setStrField p v (fun s => { p with URL := s })) ∨
    setField p k v = (p, none) := by
  by_cases h1 : keyMatches k "result_id" = true
  · left
    exact ⟨h1, by unfold setField; rw [if_pos h1]⟩
  by_cases h2 : keyMatches k "site_name" = true
  · right; left
    exact ⟨h2, by unfold setField; rw [if_neg h1, if_pos h2]⟩
  by_cases h3 : keyMatches k "service" = true
  · right; right; left
    exact ⟨h3, by unfold setField; rw [if_neg h1, if_neg h2, if_pos h3]⟩
  by_cases h4 : keyMatches k "serverName" = true
  · right; right; right; left
    exact ⟨h4, by unfold setField; rw [if_neg h1, if_neg h2, if_neg h3, if_pos h4]⟩
  by_cases h5 : keyMatches k "serverId" = true
  · right; right; right; right; left
    exact ⟨h5, by unfold setField; rw [if_neg h1, if_neg h2, if_neg h3, if_neg h4, if_pos h5]⟩
  by_cases h6 : keyMatches k "isp" = true
  · right; right; right; right; right; left
    exact ⟨h6, by unfold setField; rw [if_neg h1, if_neg h2, if_neg h3, if_neg h4, if_neg h5, if_pos h6]⟩
  by_cases h7 : keyMatches k "ping" = true
  · right; right; right; right; right; right; left
    exact ⟨h7, by unfold setField; rw [if_neg h1, if_neg h2, if_neg h3, if_neg h4, if_neg h5, if_neg h6, if_pos h7]⟩
  by_cases h8 : keyMatches k "download" = true
  · right; right; right; right; right; right; right; left
    exact ⟨h8, by unfold setField; rw [if_neg h1, if_neg h2, if_neg h3, if_neg h4, if_neg h5, if_neg h6, if_neg h7, if_pos h8]⟩
  by_cases h9 : keyMatches k "upload" = true
  · right; right; right; right; right; right; right; right; left
    exact ⟨h9, by unfold setField; rw [if_neg h1, if_neg h2, if_neg h3, if_neg h4, if_neg h5, if_neg h6, if_neg h7, if_neg h8, if_pos h9]⟩
  by_cases h10 : keyMatches k "packetLoss" = true
  · right; right; right; right; right; right; right; right; right; left
    exact ⟨h10, by unfold setField; rw [if_neg h1, if_neg h2, if_neg h3, if_neg h4, if_neg h5, if_neg h6, if_neg h7, if_neg h8, if_neg h9, if_pos h10]⟩
  by_cases h11 : keyMatches k "speedtest_url" = true
  · right; right; right; right; right; right; right; right; right; right; left
    exact ⟨h11, by unfold setField; rw [if_neg h1, if_neg h2, if_neg h3, if_neg h4, if_neg h5, if_neg h6, if_neg h7, if_neg h8, if_neg h9, if_neg h10, if_pos h11]⟩
  by_cases h12 : keyMatches k "url" = true
  · right; right; right; right; right; right; right; right; right; right; right; left
    exact ⟨h12, by unfold setField; rw [if_neg h1, if_neg h2, if_neg h3, if_neg h4, if_neg h5, if_neg h6, if_neg h7, if_neg h8, if_neg h9, if_neg h10, if_neg h11, if_pos h12]⟩
  · iterate 12 right
    unfold setField; rw [if_neg h1, if_neg h2, if_neg h3, if_neg h4, if_neg h5, if_neg h6, if_neg h7, if_neg h8, if_neg h9, if_neg h10, if_neg h11, if_neg h12]

/-- A member whose key does not match `result_id` leaves `ResultID` unchanged. -/
theorem setField_ResultID (p : WebhookPayload) (k : String) (v : Json)
    (hk : keyMatches k "result_id" = false) :
    (setField p k v).1.ResultID = p.ResultID := by
  rcases setField_eq p k v with ⟨h, he⟩ | ⟨_, he⟩ | ⟨_, he⟩ | ⟨_, he⟩ | ⟨_, he⟩ | ⟨_, he⟩ | ⟨_, he⟩ | ⟨_, he⟩ | ⟨_, he⟩ | ⟨_, he⟩ | ⟨_, he⟩ | ⟨_, he⟩ | he
  all_goals try (rw [hk] at h; exact Bool.noConfusion h)
  all_goals rw [he]
  all_goals cases v <;> first | rfl | (dsimp only [setIntField]; split <;> rfl)

/-- A member whose key does not match `site_name` leaves `SiteName` unchanged. -/
theorem setField_SiteName (p : WebhookPayload) (k : String) (v : Json)
    (hk : keyMatches k "site_name" = false) :
    (setField p k v).1.SiteName = p.SiteName := by
  rcases setField_eq p k v with ⟨_, he⟩ | ⟨h, he⟩ | ⟨_, he⟩ | ⟨_, he⟩ | ⟨_, he⟩ | ⟨_, he⟩ | ⟨_, he⟩ | ⟨_, he⟩ | ⟨_, he⟩ | ⟨_, he⟩ | ⟨_, he⟩ | ⟨_, he⟩ | he
  all_goals try (rw [hk] at h; exact Bool.noConfusion h)
  all_goals rw [he]
  all_goals cases v <;> first | rfl | (dsimp only [setIntField]; split <;> rfl)

/-- A member whose key does not match `service` leaves `Service` unchanged. -/
theorem setField_Service (p : WebhookPayload) (k : String) (v : Json)
    (hk : keyMatches k "service" = false) :
    (setField p k v).1.Service = p.Service := by
  rcases setField_eq p k v with ⟨_, he⟩ | ⟨_, he⟩ | ⟨h, he⟩ | ⟨_, he⟩ | ⟨_, he⟩ | ⟨_, he⟩ | ⟨_, he⟩ | ⟨_, he⟩ | ⟨_, he⟩ | ⟨_, he⟩ | ⟨_, he⟩ | ⟨_, he⟩ | he
  all_goals try (rw [hk] at h; exact Bool.noConfusion h)
  all_goals rw [he]
  all_goals cases v <;> first | rfl | (dsimp only [setIntField]; split <;> rfl)

/-- A member whose key does not match `serverName` leaves `ServerName` unchanged. -/
theorem setField_ServerName (p : WebhookPayload) (k : String) (v : Json)
    (hk : keyMatches k "serverName" = false) :
    (setField p k v).1.ServerName = p.ServerName := by
  rcases setField_eq p k v with ⟨_, he⟩ | ⟨_, he⟩ | ⟨_, he⟩ | ⟨h, he⟩ | ⟨_, he⟩ | ⟨_, he⟩ | ⟨_, he⟩ | ⟨_, he⟩ | ⟨_, he⟩ | ⟨_, he⟩ | ⟨_, he⟩ | ⟨_, he⟩ | he
  all_goals try (rw [hk] at h; exact Bool.noConfusion h)
  all_goals rw [he]
  all_goals cases v <;> first | rfl | (dsimp only [setIntField]; split <;> rfl)

/-- A member whose key does not match `serverId` leaves `ServerID` unchanged. -/
theorem setField_ServerID (p : WebhookPayload) (k : String) (v : Json)
    (hk : keyMatches k "serverId" = false) :
    (setField p k v).1.ServerID = p.ServerID := by
  rcases setField_eq p k v with ⟨_, he⟩ | ⟨_, he⟩ | ⟨_, he⟩ | ⟨_, he⟩ | ⟨h, he⟩ | ⟨_, he⟩ | ⟨_, he⟩ | ⟨_, he⟩ | ⟨_, he⟩ | ⟨_, he⟩ | ⟨_, he⟩ | ⟨_, he⟩ | he
  all_goals try (rw [hk] at h; exact Bool.noConfusion h)
  all_goals rw [he]
  all_goals cases v <;> first | rfl | (dsimp only [setIntField]; split <;> rfl)

/-- A member whose key does not match `isp` leaves `ISP` unchanged. -/
theorem setField_ISP (p : WebhookPayload) (k : String) (v : Json)
    (hk : keyMatches k "isp" = false) :
    (setField p k v).1.ISP = p.ISP := by
  rcases setField_eq p k v with ⟨_, he⟩ | ⟨_, he⟩ | ⟨_, he⟩ | ⟨_, he⟩ | ⟨_, he⟩ | ⟨h, he⟩ | ⟨_, he⟩ | ⟨_, he⟩ | ⟨_, he⟩ | ⟨_, he⟩ | ⟨_, he⟩ | ⟨_, he⟩ | he
  all_goals try (rw [hk] at h; exact Bool.noConfusion h)
  all_goals rw [he]
  all_goals cases v <;> first | rfl | (dsimp only [setIntField]; split <;> rfl)

/-- A member whose key does not match `ping` leaves `Ping` unchanged. -/
theorem setField_Ping (p : WebhookPayload) (k : String) (v : Json)
    (hk : keyMatches k "ping" = false) :
    (setField p k v).1.Ping = p.Ping := by
  rcases setField_eq p k v with ⟨_, he⟩ | ⟨_, he⟩ | ⟨_, he⟩ | ⟨_, he⟩ | ⟨_, he⟩ | ⟨_, he⟩ | ⟨h, he⟩ | ⟨_, he⟩ | ⟨_, he⟩ | ⟨_, he⟩ | ⟨_, he⟩ | ⟨_, he⟩ | he
  all_goals try (rw [hk] at h; exact Bool.noConfusion h)
  all_goals rw [he]
  all_goals cases v <;> first | rfl | (dsimp only [setIntField]; split <;> rfl)

/-- A member whose key does not match `download` leaves `Download` unchanged. -/
theorem setField_Download (p : WebhookPayload) (k : String) (v : Json)
    (hk : keyMatches k "download" = false) :
    (setField p k v).1.Download = p.Download := by
  rcases setField_eq p k v with ⟨_, he⟩ | ⟨_, he⟩ | ⟨_, he⟩ | ⟨_, he⟩ | ⟨_, he⟩ | ⟨_, he⟩ | ⟨_, he⟩ | ⟨h, he⟩ | ⟨_, he⟩ | ⟨_, he⟩ | ⟨_, he⟩ | ⟨_, he⟩ | he
  all_goals try (rw [hk] at h; exact Bool.noConfusion h)
  all_goals rw [he]
  all_goals cases v <;> first | rfl | (dsimp only [setIntField]; split <;> rfl)

/-- A member whose key does not match `upload` leaves `Upload` unchanged. -/
theorem setField_Upload (p : WebhookPayload) (k : String) (v : Json)
    (hk : keyMatches k "upload" = false) :
    (setField p k v).1.Upload = p.Upload := by
  rcases setField_eq p k v with ⟨_, he⟩ | ⟨_, he⟩ | ⟨_, he⟩ | ⟨_, he⟩ | ⟨_, he⟩ | ⟨_, he⟩ | ⟨_, he⟩ | ⟨_, he⟩ | ⟨h, he⟩ | ⟨_, he⟩ | ⟨_, he⟩ | ⟨_, he⟩ | he
  all_goals try (rw [hk] at h; exact Bool.noConfusion h)
  all_goals rw [he]
  all_goals cases v <;> first | rfl | (dsimp only [setIntField]; split <;> rfl)

/-- A member whose key does not match `packetLoss` leaves `PacketLoss` unchanged. -/
theorem setField_PacketLoss (p : WebhookPayload) (k : String) (v : Json)
    (hk : keyMatches k "packetLoss" = false) :
    (setField p k v).1.PacketLoss = p.PacketLoss := by
  rcases setField_eq p k v with ⟨_, he⟩ | ⟨_, he⟩ | ⟨_, he⟩ | ⟨_, he⟩ | ⟨_, he⟩ | ⟨_, he⟩ | ⟨_, he⟩ | ⟨_, he⟩ | ⟨_, he⟩ | ⟨h, he⟩ | ⟨_, he⟩ | ⟨_, he⟩ | he
  all_goals try (rw [hk] at h; exact Bool.noConfusion h)
  all_goals rw [he]
  all_goals cases v <;> first | rfl | (dsimp only [setIntField]; split <;> rfl)

/-- A member whose key does not match `speedtest_url` leaves `SpeedtestURL` unchanged. -/
theorem setField_SpeedtestURL (p : WebhookPayload) (k : String) (v : Json)
    (hk : keyMatches k "speedtest_url" = false) :
    (setField p k v).1.SpeedtestURL = p.SpeedtestURL := by
  rcases setField_eq p k v with ⟨_, he⟩ | ⟨_, he⟩ | ⟨_, he⟩ | ⟨_, he⟩ | ⟨_, he⟩ | ⟨_, he⟩ | ⟨_, he⟩ | ⟨_, he⟩ | ⟨_, he⟩ | ⟨_, he⟩ | ⟨h, he⟩ | ⟨_, he⟩ | he
  all_goals try (rw [hk] at h; exact Bool.noConfusion h)
  all_goals rw [he]
  all_goals cases v <;> first | rfl | (dsimp only [setIntField]; split <;> rfl)

/-- A member whose key does not match `url` leaves `URL` unchanged. -/
theorem setField_URL (p : WebhookPayload) (k : String) (v : Json)
    (hk : keyMatches k "url" = false) :
    (setField p k v).1.URL = p.URL := by
  rcases setField_eq p k v with ⟨_, he⟩ | ⟨_, he⟩ | ⟨_, he⟩ | ⟨_, he⟩ | ⟨_, he⟩ | ⟨_, he⟩ | ⟨_, he⟩ | ⟨_, he⟩ | ⟨_, he⟩ | ⟨_, he⟩ | ⟨_, he⟩ | ⟨h, he⟩ | he
  all_goals try (rw [hk] at h; exact Bool.noConfusion h)
  all_goals rw [he]
  all_goals cases v <;> first | rfl | (dsimp only [setIntField]; split <;> rfl)

/-- Folding members over the payload never changes a field none of whose
matching keys occur. -/
theorem applyFields_preserve {α : Type} (proj : WebhookPayload → α) (tag : String)
    (hstep : ∀ p k v, keyMatches k tag = false → proj (setField p k v).1 = proj p)
    (fs : List (String × Json)) :
    ∀ acc : WebhookPayload × Option String,
      hasKeyFold fs tag = false → proj (applyFields fs acc).1 = proj acc.1 := by
  induction fs with
  | nil => intro acc _; rfl
  | cons hd tl ih =>
    intro acc h
    have hh : keyMatches hd.1 tag = false ∧ hasKeyFold tl tag = false := by
      simpa [hasKeyFold, List.any_cons, Bool.or_eq_false_iff] using h
    have e1 : applyFields (hd :: tl) acc = applyFields tl (applyField acc hd) := rfl
    rw [e1, ih _ hh.2]
    show proj (setField acc.1 hd.1 hd.2).1 = proj acc.1
    exact hstep _ _ _ hh.1

set_option maxRecDepth 100000 in
/-- The specification's example body decodes to `examplePayload`. -/
theorem exampleBody_decodes : unmarshalPayload exampleBody = Except.ok examplePayload := by
  have hparse : unmarshalPayload exampleBody =
      Except.ok ⟨123, "", "", "Test Server", 456, "Example ISP",
        numValue false ['2', '5'] ['5'] false [],
        numValue false ['1', '0', '0', '0', '0', '0', '0', '0', '0'] [] false [],
        numValue false ['5', '0', '0', '0', '0', '0', '0', '0'] [] false [], 0, "", ""⟩ := rfl
  have hping : numValue false ['2', '5'] ['5'] false [] = 51 / 2 := by
    simp [numValue, digitsToNat, digitValue]
    norm_num
  have hdl : numValue false ['1', '0', '0', '0', '0', '0', '0', '0', '0'] [] false [] = 100000000 := by
    simp [numValue, digitsToNat, digitValue]
  have hul : numValue false ['5', '0', '0', '0', '0', '0', '0', '0'] [] false [] = 50000000 := by
    simp [numValue, digitsToNat, digitValue]
  rw [hparse, hping, hdl, hul]
  rfl

/-- A successfully decoded object leaves every field whose key is absent from
the input at its zero value. -/
theorem unmarshalInto_absent (fs : List (String × Json)) (p : WebhookPayload)
    (h : unmarshalInto (Json.obj fs) = Except.ok p) :
    (hasKeyFold fs "result_id" = false → p.ResultID = 0) ∧
    (hasKeyFold fs "site_name" = false → p.SiteName = "") ∧
    (hasKeyFold fs "service" = false → p.Service = "") ∧
    (hasKeyFold fs "serverName" = false → p.ServerName = "") ∧
    (hasKeyFold fs "serverId" = false → p.ServerID = 0) ∧
    (hasKeyFold fs "isp" = false → p.ISP = "") ∧
    (hasKeyFold fs "ping" = false → p.Ping = 0) ∧
    (hasKeyFold fs "download" = false → p.Download = 0) ∧
    (hasKeyFold fs "upload" = false → p.Upload = 0) ∧
    (hasKeyFold fs "packetLoss" = false → p.PacketLoss = 0) ∧
    (hasKeyFold fs "speedtest_url" = false → p.SpeedtestURL = "") ∧
    (hasKeyFold fs "url" = false → p.URL = "") := by
  have h2 : (match (applyFields fs (zeroPayload, none)).2 with
      | some e => (Except.error e : Except String WebhookPayload)
      | none => Except.ok (applyFields fs (zeroPayload, none)).1) = Except.ok p := h
  have hp : (applyFields fs (zeroPayload, none)).1 = p := by
    cases hoe : (applyFields fs (zeroPayload, none)).2 with
    | none => rw [hoe] at h2; simpa using h2
    | some e => rw [hoe] at h2; simp at h2
  subst hp
  repeat' apply And.intro
  all_goals intro habs
  · exact applyFields_preserve (fun w => w.ResultID) "result_id" setField_ResultID fs _ habs
  · exact applyFields_preserve (fun w => w.SiteName) "site_name" setField_SiteName fs _ habs
  · exact applyFields_preserve (fun w => w.Service) "service" setField_Service fs _ habs
  · exact applyFields_preserve (fun w => w.ServerName) "serverName" setField_ServerName fs _ habs
  · exact applyFields_preserve (fun w => w.ServerID) "serverId" setField_ServerID fs _ habs
  · exact applyFields_preserve (fun w => w.ISP) "isp" setField_ISP fs _ habs
  · exact applyFields_preserve (fun w => w.Ping) "ping" setField_Ping fs _ habs
  · exact applyFields_preserve (fun w => w.Download) "download" setField_Download fs _ habs
  · exact applyFields_preserve (fun w => w.Upload) "upload" setField_Upload fs _ habs
  · exact applyFields_preserve (fun w => w.PacketLoss) "packetLoss" setField_PacketLoss fs _ habs
  · exact applyFields_preserve (fun w => w.SpeedtestURL) "speedtest_url" setField_SpeedtestURL fs _ habs
  · exact applyFields_preserve (fun w => w.URL) "url" setField_URL fs _ habs

/-! ## Properties of the program -/

/-- **C3.** For every request to `/webhook`, the handler's response status is
exactly determined by the case split: 405 when the method is not POST, 500
when reading the body fails, 400 when the body does not decode as JSON, and
otherwise 200 with the plain-text confirmation body. -/
theorem C3_status_case_split (st : TelemetryState) (method : String)
    (bodyRead : Except String String) :
    (webhookHandler st method bodyRead).2.status = specStatus method bodyRead ∧
    ((webhookHandler st method bodyRead).2.status = 200 →
      (webhookHandler st method bodyRead).2.body = "Webhook received and processed.\n") := by
  by_cases h : method = "POST"
  · subst h
    cases bodyRead with
    | error e => simp [webhookHandler, specStatus]
    | ok b =>
      rcases hu : unmarshalPayload b with e | p <;>
        simp [webhookHandler, specStatus, hu]
  · simp [webhookHandler, specStatus, h]

set_option maxRecDepth 100000 in
/-- Witness for C3: the specification's example body yields the 200 response
with the confirmation text. -/
theorem C3_status_case_split_witness :
    (webhookHandler emptyTelemetry "POST" (Except.ok exampleBody)).2.body =
      "Webhook received and processed.\n" :=
  (C3_status_case_split emptyTelemetry "POST" (Except.ok exampleBody)).2 (by decide)

/-- **C4.** A request that does not reach a successful decode records no
histogram value: a non-POST request leaves the telemetry state entirely
unchanged (in particular it starts no handler span), and a body-read failure
or a failed decode leaves all three histograms unchanged. -/
theorem C4_failure_paths_record_nothing (st : TelemetryState) (method : String)
    (bodyRead : Except String String) :
    (method ≠ "POST" → (webhookHandler st method bodyRead).1 = st) ∧
    (∀ e, bodyRead = Except.error e →
      (webhookHandler st method bodyRead).1.pingHistogram = st.pingHistogram ∧
      (webhookHandler st method bodyRead).1.downloadHistogram = st.downloadHistogram ∧
      (webhookHandler st method bodyRead).1.uploadHistogram = st.uploadHistogram) ∧
    (∀ b, bodyRead = Except.ok b → decodeOk b = false →
      (webhookHandler st method bodyRead).1.pingHistogram = st.pingHistogram ∧
      (webhookHandler st method bodyRead).1.downloadHistogram = st.downloadHistogram ∧
      (webhookHandler st method bodyRead).1.uploadHistogram = st.uploadHistogram) := by
  refine ⟨fun h => by simp [webhookHandler, h], fun e he => ?_, fun b hb hd => ?_⟩
  · subst he
    by_cases h : method = "POST" <;> simp [webhookHandler, h]
  · subst hb
    by_cases h : method = "POST"
    · rcases hu : unmarshalPayload b with er | p
      · simp [webhookHandler, h, hu]
      · exact absurd hd (by simp [decodeOk, hu])
    · simp [webhookHandler, h]

/-- Witness for C4: a GET request against the empty telemetry state changes
nothing. -/
theorem C4_failure_paths_record_nothing_witness :
    (webhookHandler emptyTelemetry "GET" (Except.ok "")).1 = emptyTelemetry :=
  (C4_failure_paths_record_nothing emptyTelemetry "GET" (Except.ok "")).1 (by decide)

/-- **C9.** A POST whose body is empty fails to decode (the empty input is
not valid JSON), so the handler responds 400, records the decode error on
the span it started, and records no histogram value. -/
theorem C9_empty_body_rejected (st : TelemetryState) :
    parseJson "" = none ∧
    webhookHandler st "POST" (Except.ok "") =
      ({ st with spans := st.spans ++ [{ errorsRecorded := ["invalid JSON syntax"], events := [] }] },
       { status := 400, body := "Error parsing JSON payload\n" }) := by
  refine ⟨rfl, ?_⟩
  have hu : unmarshalPayload "" = Except.error "invalid JSON syntax" := rfl
  simp [webhookHandler, hu]

/-- **C10.** The handler's response (status and body) is a function of the
request method and body alone: it does not depend on the telemetry state,
i.e. on provider state or earlier requests. -/
theorem C10_response_deterministic (st1 st2 : TelemetryState) (method : String)
    (bodyRead : Except String String) :
    (webhookHandler st1 method bodyRead).2 = (webhookHandler st2 method bodyRead).2 := by
  by_cases h : method = "POST"
  · subst h
    cases bodyRead with
    | error e => rfl
    | ok b => rcases hu : unmarshalPayload b with e | p <;> simp [webhookHandler, hu]
  · simp [webhookHandler, h]

/-- **C5.** A successfully processed POST records exactly one value into each
of the three histograms — the payload's ping, download, and upload — all
three carrying the attribute set `server.id = strconv.Itoa(ServerID)`,
`server.name = ServerName`, `isp = ISP` (a `MetricRecord` is a recorded
value paired with its attribute list). -/
theorem C5_metrics_recorded (st : TelemetryState) (b : String) (p : WebhookPayload)
    (h : unmarshalPayload b = Except.ok p) :
    (webhookHandler st "POST" (Except.ok b)).1.pingHistogram =
      st.pingHistogram ++ [⟨p.Ping,
        [("server.id", AttrVal.str (itoa p.ServerID)),
         ("server.name", AttrVal.str p.ServerName),
         ("isp", AttrVal.str p.ISP)]⟩] ∧
    (webhookHandler st "POST" (Except.ok b)).1.downloadHistogram =
      st.downloadHistogram ++ [⟨p.Download,
        [("server.id", AttrVal.str (itoa p.ServerID)),
         ("server.name", AttrVal.str p.ServerName),
         ("isp", AttrVal.str p.ISP)]⟩] ∧
    (webhookHandler st "POST" (Except.ok b)).1.uploadHistogram =
      st.uploadHistogram ++ [⟨p.Upload,
        [("server.id", AttrVal.str (itoa p.ServerID)),
         ("server.name", AttrVal.str p.ServerName),
         ("isp", AttrVal.str p.ISP)]⟩] := by
  simp [webhookHandler, h, metricAttrs]

set_option maxRecDepth 100000 in
/-- Witness for C5: the specification's example body records ping `25.5`
with attributes `server.id = "456"`, `server.name = "Test Server"`,
`isp = "Example ISP"`. -/
theorem C5_metrics_recorded_witness :
    (webhookHandler emptyTelemetry "POST" (Except.ok exampleBody)).1.pingHistogram =
      [⟨51 / 2,
        [("server.id", AttrVal.str "456"),
         ("server.name", AttrVal.str "Test Server"),
         ("isp", AttrVal.str "Example ISP")]⟩] :=
  ((C5_metrics_recorded emptyTelemetry exampleBody examplePayload exampleBody_decodes).1).trans (by rfl)

/-- **C6.** A successfully processed POST attaches exactly one event, named
`speedtest.result`, to the one span it started (a `SpanRecord` is the list of
recorded errors paired with the list of events; a `SpanEvent` is a name
paired with its attribute list); the event's result id, ping, download, and
upload are the payload values whose ping/download/upload are recorded into
the histograms of the same request, and the event also carries the site
name, service name, server id, server name, ISP, packet loss, and result
URL. -/
theorem C6_span_event (st : TelemetryState) (b : String) (p : WebhookPayload)
    (h : unmarshalPayload b = Except.ok p) :
    (webhookHandler st "POST" (Except.ok b)).1.spans =
      st.spans ++ [⟨[], [⟨"speedtest.result",
        [("result_id", AttrVal.int p.ResultID),
         ("site_name", AttrVal.str p.SiteName),
         ("service", AttrVal.str p.Service),
         ("server.name", AttrVal.str p.ServerName),
         ("server.id", AttrVal.int p.ServerID),
         ("isp", AttrVal.str p.ISP),
         ("ping", AttrVal.float p.Ping),
         ("download.bps", AttrVal.float p.Download),
         ("upload.bps", AttrVal.float p.Upload),
         ("packet.loss", AttrVal.float p.PacketLoss),
         ("speedtest.url", AttrVal.str p.SpeedtestURL)]⟩]⟩] ∧
    (webhookHandler st "POST" (Except.ok b)).1.pingHistogram =
      st.pingHistogram ++ [⟨p.Ping, metricAttrs p⟩] ∧
    (webhookHandler st "POST" (Except.ok b)).1.downloadHistogram =
      st.downloadHistogram ++ [⟨p.Download, metricAttrs p⟩] ∧
    (webhookHandler st "POST" (Except.ok b)).1.uploadHistogram =
      st.uploadHistogram ++ [⟨p.Upload, metricAttrs p⟩] := by
  simp [webhookHandler, h, speedtestEvent]

set_option maxRecDepth 100000 in
/-- Witness for C6: the span event of the example body, with the same values
the metrics of that request record. -/
theorem C6_span_event_witness :
    (webhookHandler emptyTelemetry "POST" (Except.ok exampleBody)).1.spans =
      [⟨[], [⟨"speedtest.result",
        [("result_id", AttrVal.int 123),
         ("site_name", AttrVal.str ""),
         ("service", AttrVal.str ""),
         ("server.name", AttrVal.str "Test Server"),
         ("server.id", AttrVal.int 456),
         ("isp", AttrVal.str "Example ISP"),
         ("ping", AttrVal.float (51 / 2)),
         ("download.bps", AttrVal.float 100000000),
         ("upload.bps", AttrVal.float 50000000),
         ("packet.loss", AttrVal.float 0),
         ("speedtest.url", AttrVal.str "")]⟩]⟩] :=
  ((C6_span_event emptyTelemetry exampleBody examplePayload exampleBody_decodes).1).trans (by rfl)

/-- **C1** (evidence of the code bug). In a clean run whose telemetry flush
fails at shutdown, `otelShutdown` returns the flush error (recorded in the
trace event), yet `run` returns `nil` (`RunOutcome.ret []`): the deferred
`errors.Join` writes to a local variable while `run`'s result is unnamed, so
the flush error is dropped instead of being joined into the exit error. -/
theorem C1_flush_error_dropped :
    run flushFailEnv =
      (RunOutcome.ret [],
       [RunEvent.otelSetup, RunEvent.instrument "speedtest.ping" "ms",
        RunEvent.instrument "speedtest.download" "bps",
        RunEvent.instrument "speedtest.upload" "bps",
        RunEvent.serverConstructed, RunEvent.listenStarted,
        RunEvent.serverShutdown,
        RunEvent.otelShutdownCalled ["telemetry flush failed"]]) := by
  rfl

/-- **C2** (counterexample). `[]` is syntactically valid JSON, yet decoding
it into the payload fails — decoding does not succeed on every valid
document, and failing is not equivalent to syntactic invalidity. -/
theorem C2_valid_json_failing_decode :
    (parseJson "[]").isSome = true ∧ decodeOk "[]" = false := by
  exact ⟨rfl, rfl⟩

/-- **C2** (amended). Decoding fails on every input that is not
syntactically valid JSON; a valid empty object decodes to the all-zero
payload; and whenever an object decodes successfully, every field whose key
is absent from the input keeps its zero/empty default.  (By the
counterexample, decoding can also fail on syntactically valid JSON whose
shape does not match the struct, so validity alone does not imply
success.) -/
theorem C2_decode_amended :
    (∀ b : String, parseJson b = none →
      unmarshalPayload b = Except.error "invalid JSON syntax") ∧
    unmarshalPayload "\x7b\x7d" = Except.ok zeroPayload ∧
    (∀ (fs : List (String × Json)) (p : WebhookPayload),
      unmarshalInto (Json.obj fs) = Except.ok p →
      (hasKeyFold fs "result_id" = false → p.ResultID = 0) ∧
      (hasKeyFold fs "site_name" = false → p.SiteName = "") ∧
      (hasKeyFold fs "service" = false → p.Service = "") ∧
      (hasKeyFold fs "serverName" = false → p.ServerName = "") ∧
      (hasKeyFold fs "serverId" = false → p.ServerID = 0) ∧
      (hasKeyFold fs "isp" = false → p.ISP = "") ∧
      (hasKeyFold fs "ping" = false → p.Ping = 0) ∧
      (hasKeyFold fs "download" = false → p.Download = 0) ∧
      (hasKeyFold fs "upload" = false → p.Upload = 0) ∧
      (hasKeyFold fs "packetLoss" = false → p.PacketLoss = 0) ∧
      (hasKeyFold fs "speedtest_url" = false → p.SpeedtestURL = "") ∧
      (hasKeyFold fs "url" = false → p.URL = "")) := by
  refine ⟨fun b h => ?_, rfl, fun fs p h => unmarshalInto_absent fs p h⟩
  simp [unmarshalPayload, h]

/-- Witness for the amended C2: `"x"` is invalid and fails to decode, and an
object carrying only an `isp` key decodes with `Ping` left at zero. -/
theorem C2_decode_amended_witness :
    unmarshalPayload "x" = Except.error "invalid JSON syntax" ∧
    ({ zeroPayload with ISP := "X" } : WebhookPayload).Ping = 0 :=
  ⟨C2_decode_amended.1 "x" (by rfl),
   ((C2_decode_amended.2.2 [("isp", Json.str "X")] { zeroPayload with ISP := "X" }
      (by rfl)).2.2.2.2.2.2).1 (by rfl)⟩

/-- **C7** (counterexample). In a fully successful startup the download
histogram is created with unit string `"bps"`, not `"bits/sec"`. -/
theorem C7_download_unit_is_bps :
    RunEvent.instrument "speedtest.download" "bps" ∈ (run goodEnv).2 ∧
    RunEvent.instrument "speedtest.download" "bits/sec" ∉ (run goodEnv).2 := by
  decide

/-- **C7** (amended). In every execution that reaches the listen step, the
trace begins with exactly the telemetry bootstrap, then exactly one creation
of each histogram — `speedtest.ping` with unit `ms`, `speedtest.download`
with unit `bps`, `speedtest.upload` with unit `bps`, in that order — then
server construction and listen start; no instrument is created afterwards. -/
theorem C7_instruments_amended (env : RunEnv)
    (h : RunEvent.listenStarted ∈ (run env).2) :
    (run env).2.take 6 =
      [RunEvent.otelSetup, RunEvent.instrument "speedtest.ping" "ms",
       RunEvent.instrument "speedtest.download" "bps",
       RunEvent.instrument "speedtest.upload" "bps",
       RunEvent.serverConstructed, RunEvent.listenStarted] ∧
    instrumentFree ((run env).2.drop 6) = true := by
  by_cases h1 : env.setupErr = []
  case neg => simp [run, h1] at h
  all_goals by_cases h2 : env.pingHistErr = []
  case neg => simp [run, h1, h2] at h
  all_goals by_cases h3 : env.downloadHistErr = []
  case neg => simp [run, h1, h2, h3] at h
  all_goals by_cases h4 : env.uploadHistErr = []
  case neg => simp [run, h1, h2, h3, h4] at h
  all_goals by_cases h5 : env.portEnv = ""
  case pos => simp [run, h1, h2, h3, h4, h5] at h
  all_goals rcases h6 : atoi env.portEnv with _ | port
  · simp [run, h1, h2, h3, h4, h5, h6] at h
  all_goals by_cases h7 : env.listenOk = true
  case neg => simp [run, h1, h2, h3, h4, h5, h6, h7, instrumentFree, isInstrumentEvent]
  all_goals by_cases h8 : env.shutdownErr = []
  all_goals simp [run, h1, h2, h3, h4, h5, h6, h7, h8, instrumentFree, isInstrumentEvent]

/-- Witness for the amended C7: the fully successful environment reaches the
listen step and its trace has the stated shape. -/
theorem C7_instruments_amended_witness :
    (run goodEnv).2.take 6 =
      [RunEvent.otelSetup, RunEvent.instrument "speedtest.ping" "ms",
       RunEvent.instrument "speedtest.download" "bps",
       RunEvent.instrument "speedtest.upload" "bps",
       RunEvent.serverConstructed, RunEvent.listenStarted] ∧
    instrumentFree ((run goodEnv).2.drop 6) = true :=
  C7_instruments_amended goodEnv (by decide)

/-- **C8.** Startup is fail-fast: if telemetry bootstrap fails, or
`STW_SERVER_PORT` is absent (the empty string) or not accepted by
`strconv.Atoi`, the trace never contains server construction or listen
start, and `run` does not return `nil`. -/
theorem C8_fail_fast (env : RunEnv)
    (h : env.setupErr ≠ [] ∨ env.portEnv = "" ∨ atoi env.portEnv = none) :
    RunEvent.serverConstructed ∉ (run env).2 ∧
    RunEvent.listenStarted ∉ (run env).2 ∧
    (run env).1 ≠ RunOutcome.ret [] := by
  by_cases h1 : env.setupErr = []
  case neg => simp [run, h1]
  all_goals by_cases h2 : env.pingHistErr = []
  case neg => simp [run, h1, h2]
  all_goals by_cases h3 : env.downloadHistErr = []
  case neg => simp [run, h1, h2, h3]
  all_goals by_cases h4 : env.uploadHistErr = []
  case neg => simp [run, h1, h2, h3, h4]
  all_goals by_cases h5 : env.portEnv = ""
  case pos => simp [run, h1, h2, h3, h4, h5]
  all_goals rcases h6 : atoi env.portEnv with _ | port
  · simp [run, h1, h2, h3, h4, h5, h6]
  all_goals exact absurd h (by simp [h1, h5, h6])

/-- Witness for C8: a failed telemetry bootstrap yields no server events and
a non-nil exit error. -/
theorem C8_fail_fast_witness :
    RunEvent.serverConstructed ∉ (run setupFailEnv).2 ∧
    RunEvent.listenStarted ∉ (run setupFailEnv).2 ∧
    (run setupFailEnv).1 ≠ RunOutcome.ret [] :=
  C8_fail_fast setupFailEnv (Or.inl (by decide))

end STW
